import Mathlib

/-!
Verification of the pagerduty-operator helpers: a shallow embedding of
`pkg/pagerduty/service.go` and `pkg/vault/connection.go`.

External collaborators (the Kubernetes client, the PagerDuty REST client
and the Vault REST client) are modelled as oracles: records of functions
giving the result of each call the code makes.  The code's control flow,
error messages, field updates and call counts are translated faithfully
from the Go source.
-/

/-- `true` iff `pat` occurs as a contiguous sublist of `s`
(Go `strings.Contains` on the underlying characters). -/
def listContains (s pat : List Char) : Bool :=
  match s with
  | [] => pat.isEmpty
  | _ :: t => pat.isPrefixOf s || listContains t pat

/-- Go `strings.Contains s pat`. -/
def strContains (s pat : String) : Bool :=
  listContains s.data pat.data

/-- `true` on `Except.ok`. -/
def exceptIsOk {ε α : Type} : Except ε α → Bool
  | .ok _ => true
  | .error _ => false

namespace PD

/-- `getSecretKey` from `pkg/pagerduty/service.go`: look a key up in a
Secret's data (a Go map, modelled as an association list with first-match
lookup), failing when the key is absent or its value empty. -/
def getSecretKey (data : List (String × String)) (key : String) : Except String String :=
  match data.find? (fun p => p.1 == key) with
  | none => .error (key ++ " does not exist")
  | some p =>
      if p.2.length ≤ 0 then .error (key ++ " is empty") else .ok p.2

/-- `convertStrToUint`: Go `strconv.ParseUint value 10 32` — digits only,
non-empty, value below `2^32`. -/
def convertStrToUint (value : String) : Except String Nat :=
  if value.isEmpty then .error ("parsing " ++ value ++ ": invalid syntax")
  else if value.data.all (fun c => c.isDigit) then
    let n := value.data.foldl (fun acc c => acc * 10 + (c.toNat - 48)) 0
    if n < 4294967296 then .ok n
    else .error ("parsing " ++ value ++ ": value out of range")
  else .error ("parsing " ++ value ++ ": invalid syntax")

/-- The `Data` struct of `pkg/pagerduty/service.go`. -/
structure Data where
  escalationPolicyID : String
  autoResolveTimeout : Nat
  acknowledgeTimeOut : Nat
  servicePrefix : String
  APIKey : String
  ClusterID : String
  BaseDomain : String
  ServiceID : String
  IntegrationID : String
deriving Repr, DecidableEq

/-- A PagerDuty service as returned by the API (the fields the code reads). -/
structure Service where
  id : String
  name : String
deriving Repr, DecidableEq

/-- A PagerDuty integration as returned by the API (the field the code reads). -/
structure Integration where
  id : String
deriving Repr, DecidableEq

/-- The service descriptor `clusterService` built in `Data.CreateService`. -/
structure ServiceDescriptor where
  name : String
  description : String
  escalationPolicy : String
  autoResolveTimeout : Nat
  acknowledgementTimeout : Nat
  alertCreation : String
deriving Repr, DecidableEq

/-- The integration descriptor `clusterIntegration` built in `Data.CreateService`. -/
structure IntegrationDescriptor where
  name : String
  type : String
deriving Repr, DecidableEq

/-- The PagerDuty client as an oracle: the result of each API call,
as a function of the arguments the code passes. -/
structure Env where
  getEscalationPolicy : String → Except String String
  createService : ServiceDescriptor → Except String Service
  listServices : String → Except String (List Service)
  createIntegration : String → IntegrationDescriptor → Except String Integration

/-- Counts of the upstream effects a `CreateService` run performs. -/
structure Effects where
  serviceCreateAttempts : Nat
  servicesCreated : Nat
  listCalls : Nat
  integrationAttempts : Nat
  integrationsCreated : Nat
deriving Repr, DecidableEq

/-- The outcome of a `CreateService` run: the updated `Data` record, the
returned `(string, error)` pair, and the effect counts. -/
structure CSResult where
  data : Data
  result : Except String String
  eff : Effects
deriving Repr

/-- The duplicate-name signal the code detects by substring match. -/
def dupMsg : String := "Name has already been taken"

/-- The derived service name
`prefix-clusterID.baseDomain-hive-cluster` of `Data.CreateService`. -/
def derivedName (d : Data) : String :=
  d.servicePrefix ++ "-" ++ d.ClusterID ++ "." ++ d.BaseDomain ++ "-hive-cluster"

/-- The `clusterService` descriptor of `Data.CreateService`. -/
def clusterService (d : Data) (escalationPolicy : String) : ServiceDescriptor :=
  { name := derivedName d
    description := d.ClusterID ++ " - A managed hive created cluster"
    escalationPolicy := escalationPolicy
    autoResolveTimeout := d.autoResolveTimeout
    acknowledgementTimeout := d.acknowledgeTimeOut
    alertCreation := "create_alerts_and_incidents" }

/-- The `clusterIntegration` descriptor of `Data.CreateService`. -/
def clusterIntegration : IntegrationDescriptor :=
  { name := "V4 Alertmanager", type := "events_api_v2_inbound_integration" }

/-- The tail of `Data.CreateService` from line 215 on: store the service ID,
create the integration, store and return its ID. -/
def finishWithService (d : Data) (env : Env) (svc : Service) (eff : Effects) : CSResult :=
  let d1 := { d with ServiceID := svc.id }
  match env.createIntegration svc.id clusterIntegration with
  | .error e =>
      ⟨d1, .error e, { eff with integrationAttempts := eff.integrationAttempts + 1 }⟩
  | .ok newInt =>
      ⟨{ d1 with IntegrationID := newInt.id }, .ok newInt.id,
        { eff with integrationAttempts := eff.integrationAttempts + 1,
                   integrationsCreated := eff.integrationsCreated + 1 }⟩

/-- `Data.CreateService` from `pkg/pagerduty/service.go`: resolve the
escalation policy, attempt creation, adopt the first exact-name match on a
duplicate-name error, then create one integration. -/
def CreateService (d : Data) (env : Env) : CSResult :=
  match env.getEscalationPolicy d.escalationPolicyID with
  | .error _ => ⟨d, .error "Escalation policy not found in PagerDuty", ⟨0, 0, 0, 0, 0⟩⟩
  | .ok escalationPolicy =>
    let descr := clusterService d escalationPolicy
    match env.createService descr with
    | .ok newSvc => finishWithService d env newSvc ⟨1, 1, 0, 0, 0⟩
    | .error e =>
      if !(strContains e dupMsg) then ⟨d, .error e, ⟨1, 0, 0, 0, 0⟩⟩
      else
        match env.listServices descr.name with
        | .error _ => ⟨d, .error e, ⟨1, 0, 1, 0, 0⟩⟩
        | .ok currentSvcs =>
          match currentSvcs.find? (fun svc => svc.name == descr.name) with
          | some newSvc => finishWithService d env newSvc ⟨1, 0, 1, 0, 0⟩
          | none => ⟨d, .error e, ⟨1, 0, 1, 0, 0⟩⟩

/-- `Data.ParsePDConfig` from `pkg/pagerduty/service.go`, with the
Kubernetes read of the `pagerduty-api-key` Secret supplied as an oracle:
resolve the four required keys (propagating their failures), then the
optional `SERVICE_PREFIX`, defaulting it to `"osd"` on any failure. -/
def ParsePDConfig (d : Data) (secretGet : Except String (List (String × String))) :
    Except String Data :=
  match secretGet with
  | .error e => .error e
  | .ok m =>
    match getSecretKey m "PAGERDUTY_API_KEY" with
    | .error e => .error e
    | .ok apiKey =>
    match getSecretKey m "ESCALATION_POLICY" with
    | .error e => .error e
    | .ok policy =>
    match getSecretKey m "RESOLVE_TIMEOUT" with
    | .error e => .error e
    | .ok autoResolveTimeoutStr =>
    match convertStrToUint autoResolveTimeoutStr with
    | .error e => .error e
    | .ok resolveT =>
    match getSecretKey m "ACKNOWLEDGE_TIMEOUT" with
    | .error e => .error e
    | .ok acknowledgeTimeStr =>
    match convertStrToUint acknowledgeTimeStr with
    | .error e => .error e
    | .ok ackT =>
    let pfx : String :=
      match getSecretKey m "SERVICE_PREFIX" with
      | .ok s => s
      | .error _ => "osd"
    .ok { d with APIKey := apiKey, escalationPolicyID := policy,
                 autoResolveTimeout := resolveT, acknowledgeTimeOut := ackT,
                 servicePrefix := pfx }

/-- The values of the four required ticketing keys. -/
structure RequiredKeys where
  apiKey : String
  escalationPolicyID : String
  autoResolveTimeout : Nat
  acknowledgeTimeOut : Nat
deriving Repr, DecidableEq

/-- The required-key portion of `ParsePDConfig`: the same four resolutions
and numeric conversions, in the same order, as one chained computation. -/
def requiredResolve (m : List (String × String)) : Except String RequiredKeys :=
  match getSecretKey m "PAGERDUTY_API_KEY" with
  | .error e => .error e
  | .ok apiKey =>
  match getSecretKey m "ESCALATION_POLICY" with
  | .error e => .error e
  | .ok policy =>
  match getSecretKey m "RESOLVE_TIMEOUT" with
  | .error e => .error e
  | .ok autoResolveTimeoutStr =>
  match convertStrToUint autoResolveTimeoutStr with
  | .error e => .error e
  | .ok resolveT =>
  match getSecretKey m "ACKNOWLEDGE_TIMEOUT" with
  | .error e => .error e
  | .ok acknowledgeTimeStr =>
  match convertStrToUint acknowledgeTimeStr with
  | .error e => .error e
  | .ok ackT =>
  .ok ⟨apiKey, policy, resolveT, ackT⟩

/-- Writing resolved configuration values into a `Data` record. -/
def applyParsed (d : Data) (q : RequiredKeys) (pfx : String) : Data :=
  { d with APIKey := q.apiKey, escalationPolicyID := q.escalationPolicyID,
           autoResolveTimeout := q.autoResolveTimeout,
           acknowledgeTimeOut := q.acknowledgeTimeOut,
           servicePrefix := pfx }

end PD

namespace Vault

/-- `getDataKey` from `pkg/vault/connection.go`: look a key up in the Vault
connection Secret's data, failing when absent or empty. -/
def getDataKey (data : List (String × String)) (key : String) : Except String String :=
  match data.find? (fun p => p.1 == key) with
  | none => .error (key ++ " is not set.")
  | some p =>
      if p.2.length ≤ 0 then .error (key ++ " is empty") else .ok p.2

/-- A value inside a Vault response payload (Go `interface\x7b\x7d`): a string,
a nested string-keyed mapping, or some other value carrying its `%v`
rendering. -/
inductive VVal where
  | str : String → VVal
  | map : List (String × VVal) → VVal
  | other : String → VVal
deriving Repr

/-- Go `fmt.Sprintf "%v"` of a payload value.  The exact rendering of a
nested mapping is irrelevant to the code (only emptiness and the returned
string matter); it is modelled as a non-empty bracketed form. -/
def VVal.render : VVal → String
  | .str s => s
  | .map _ => "map[]"
  | .other r => r

/-- A Vault read response: the top-level `Data` mapping and the warning
list. -/
structure VaultResponse where
  data : List (String × VVal)
  warnings : List String
deriving Repr

/-- First-match lookup in a payload mapping (a Go map). -/
def lookupAssoc (m : List (String × VVal)) (k : String) : Option VVal :=
  (m.find? (fun p => p.1 == k)).map (fun p => p.2)

/-- Whether a response's `data` field is present and is a nested mapping
(the Go type assertion `vault.Data["data"].(map[string]interface\x7b\x7d)`
succeeding). -/
def dataFieldIsMap (r : VaultResponse) : Bool :=
  match lookupAssoc r.data "data" with
  | some (VVal.map _) => true
  | _ => false

/-- The Vault client as an oracle: `api.NewClient` on an address, and an
authenticated `Logical().Read` as a function of token and full path. -/
structure VaultAPI where
  newClient : String → Except String Unit
  read : String → String → Except String VaultResponse

/-- The Vault connection parameters `GetVaultSecret` resolves from the
Kubernetes Secret. -/
structure Conf where
  url : String
  token : String
  mount : String
  key : String
  property : String
  path : String
deriving Repr, DecidableEq

/-- `Data.queryVault` from `pkg/vault/connection.go`: build the KV-v2 path,
create the client, read, require the `data` field to be a nested mapping,
and scan it for the property. -/
def queryVault (c : Conf) (api : VaultAPI) : Except String String :=
  let vaultFullPath := c.mount ++ "/data/" ++ c.path
  match api.newClient c.url with
  | .error e => .error e
  | .ok _ =>
    match api.read c.token vaultFullPath with
    | .error e => .error e
    | .ok vault =>
      match lookupAssoc vault.data "data" with
      | some (VVal.map secret) =>
          if vault.data.length == 0 then .error "Vault data is empty"
          else
            match secret.find? (fun p => p.1 == c.property) with
            | some p =>
                let value := p.2.render
                if value.length ≤ 0 then .error (c.property ++ " is empty")
                else .ok value
            | none => .error (c.property ++ " not set in vault")
      | _ => .error "Error parsing secret data"

/-- The sequential resolution of the six connection keys in
`GetVaultSecret`, in source order. -/
def resolveConf (m : List (String × String)) : Except String Conf :=
  match getDataKey m "VAULT_URL" with
  | .error e => .error e
  | .ok url =>
  match getDataKey m "VAULT_TOKEN" with
  | .error e => .error e
  | .ok token =>
  match getDataKey m "VAULT_MOUNT" with
  | .error e => .error e
  | .ok mount =>
  match getDataKey m "VAULT_KEY" with
  | .error e => .error e
  | .ok key =>
  match getDataKey m "VAULT_PROPERTY" with
  | .error e => .error e
  | .ok property =>
  match getDataKey m "VAULT_PATH" with
  | .error e => .error e
  | .ok path =>
  .ok ⟨url, token, mount, key, property, path⟩

/-- The cache file at `/tmp/\x7bmount\x7d-\x7bproperty\x7d`: its contents, its
modification time, and whether `ioutil.ReadFile` on it succeeds. -/
structure CacheFile where
  content : String
  mtime : Int
  readable : Bool
deriving Repr, DecidableEq

/-- The local filesystem as `GetVaultSecret` sees it: the cache file (if
any), whether `os.Stat` fails with a non-`IsNotExist` error, and whether
`os.Create` / `WriteString` fail. -/
structure World where
  file : Option CacheFile
  statPermError : Bool
  createFails : Bool
  writeFails : Bool
deriving Repr, DecidableEq

/-- Everything external to one `GetVaultSecret` call: the Kubernetes Secret
read, the Vault API oracle, and the current time (seconds). -/
structure VaultEnv where
  k8sGet : Except String (List (String × String))
  api : VaultAPI
  now : Int

/-- Counts of the filesystem and remote effects of one `GetVaultSecret`
call. -/
structure Effects where
  remoteReads : Nat
  saveAttempts : Nat
  fileReads : Nat
  deletes : Nat
deriving Repr, DecidableEq

/-- How a `GetVaultSecret` call ends: a value, an error, or a crash
(nil-pointer dereference). -/
inductive Outcome where
  | ok : String → Outcome
  | err : String → Outcome
  | panics : Outcome
deriving Repr, DecidableEq

/-- The outcome, final filesystem state, and effect counts of one
`GetVaultSecret` call. -/
structure GVResult where
  outcome : Outcome
  world : World
  eff : Effects
deriving Repr, DecidableEq

/-- The 6-hour staleness window, in seconds
(`time.Hour * time.Duration (-6)` of the source). -/
def stalenessWindow : Int := 21600

/-- `saveSecret` from `pkg/vault/connection.go`: remove the file, create it,
write the value.  Returns the new filesystem state and whether it
succeeded; a failed `WriteString` leaves the file created but empty. -/
def saveSecret (w : World) (now : Int) (value : String) : World × Bool :=
  let w1 : World := { w with file := none }
  if w.createFails then (w1, false)
  else if w.writeFails then ({ w1 with file := some ⟨"", now, true⟩ }, false)
  else ({ w1 with file := some ⟨value, now, true⟩ }, true)

/-- The `ioutil.ReadFile` tail of `GetVaultSecret` (lines 173–180): read
the cache file and return its contents; on failure remove it and return a
fresh `queryVault` call's result directly. -/
def readStep (w : World) (c : Conf) (api : VaultAPI) (eff : Effects) : GVResult :=
  match w.file with
  | some f =>
      if f.readable then
        ⟨.ok f.content, w, { eff with fileReads := eff.fileReads + 1 }⟩
      else
        let w2 : World := { w with file := none }
        match queryVault c api with
        | .ok v => ⟨.ok v, w2,
            { eff with fileReads := eff.fileReads + 1, deletes := eff.deletes + 1,
                       remoteReads := eff.remoteReads + 1 }⟩
        | .error e => ⟨.err e, w2,
            { eff with fileReads := eff.fileReads + 1, deletes := eff.deletes + 1,
                       remoteReads := eff.remoteReads + 1 }⟩
  | none =>
      let w2 : World := { w with file := none }
      match queryVault c api with
      | .ok v => ⟨.ok v, w2,
          { eff with fileReads := eff.fileReads + 1, deletes := eff.deletes + 1,
                     remoteReads := eff.remoteReads + 1 }⟩
      | .error e => ⟨.err e, w2,
          { eff with fileReads := eff.fileReads + 1, deletes := eff.deletes + 1,
                     remoteReads := eff.remoteReads + 1 }⟩

/-- `Data.GetVaultSecret` from `pkg/vault/connection.go`: resolve the six
connection keys, stat the cache file (a stat failure other than
non-existence makes the Go code dereference a nil `FileInfo`, modelled as
`Outcome.panics`), on a missing or stale file query Vault and save, then
read the file back. -/
def GetVaultSecret (env : VaultEnv) (w : World) : GVResult :=
  match env.k8sGet with
  | .error e => ⟨.err e, w, ⟨0, 0, 0, 0⟩⟩
  | .ok m =>
    match resolveConf m with
    | .error e => ⟨.err e, w, ⟨0, 0, 0, 0⟩⟩
    | .ok c =>
      if w.statPermError then ⟨.panics, w, ⟨0, 0, 0, 0⟩⟩
      else
        let stale : Bool :=
          match w.file with
          | none => true
          | some f => decide (f.mtime < env.now - stalenessWindow)
        if stale then
          match queryVault c env.api with
          | .error e => ⟨.err e, w, ⟨1, 0, 0, 0⟩⟩
          | .ok secret =>
            let sv := saveSecret w env.now secret
            if sv.2 then readStep sv.1 c env.api ⟨1, 1, 0, 0⟩
            else ⟨.ok secret, sv.1, ⟨1, 1, 0, 0⟩⟩
        else readStep w c env.api ⟨0, 0, 0, 0⟩

end Vault

/-! Concrete fixtures used by the witness theorems. -/

/-- A ticketing configuration record as it stands before provisioning. -/
def pdData0 : PD.Data :=
  ⟨"EP123", 300, 600, "osd", "KEY", "abc", "example.com", "", "OLDINT"⟩

/-- The exact-name match returned by the service listing. -/
def svcMatch : PD.Service := ⟨"SVC1", "osd-abc.example.com-hive-cluster"⟩

/-- A PagerDuty oracle for the adopt-on-duplicate scenario. -/
def envAdopt : PD.Env :=
  { getEscalationPolicy := fun _ => .ok "EP"
    createService := fun _ => .error "Name has already been taken"
    listServices := fun _ => .ok [⟨"SVC0", "other"⟩, svcMatch, ⟨"SVC2", "osd-abc.example.com-hive-cluster"⟩]
    createIntegration := fun _ _ => .ok ⟨"INT1"⟩ }

/-- A PagerDuty oracle whose service creation fails fatally. -/
def envFatal : PD.Env :=
  { getEscalationPolicy := fun _ => .ok "EP"
    createService := fun _ => .error "boom"
    listServices := fun _ => .ok []
    createIntegration := fun _ _ => .ok ⟨"INT1"⟩ }

/-- A PagerDuty oracle with a duplicate-name error but no exact match. -/
def envNoMatch : PD.Env :=
  { getEscalationPolicy := fun _ => .ok "EP"
    createService := fun _ => .error "Name has already been taken"
    listServices := fun _ => .ok [⟨"SVC0", "other"⟩]
    createIntegration := fun _ _ => .ok ⟨"INT1"⟩ }

/-- A PagerDuty oracle whose escalation-policy lookup fails. -/
def envPolicyFail : PD.Env :=
  { getEscalationPolicy := fun _ => .error "404"
    createService := fun _ => .ok ⟨"SVCX", "x"⟩
    listServices := fun _ => .ok []
    createIntegration := fun _ _ => .ok ⟨"INT1"⟩ }

/-- A PagerDuty oracle whose integration creation fails after a successful
service creation. -/
def envIntFail : PD.Env :=
  { getEscalationPolicy := fun _ => .ok "EP"
    createService := fun _ => .ok ⟨"SVC9", "osd-abc.example.com-hive-cluster"⟩
    listServices := fun _ => .ok []
    createIntegration := fun _ _ => .error "int-boom" }

/-- A ticketing Secret payload with the four required keys and no
`SERVICE_PREFIX`. -/
def pdSecret1 : List (String × String) :=
  [("PAGERDUTY_API_KEY", "k"), ("ESCALATION_POLICY", "ep"),
   ("RESOLVE_TIMEOUT", "300"), ("ACKNOWLEDGE_TIMEOUT", "600")]

/-- A Vault connection Secret payload with all six keys. -/
def vaultKeys0 : List (String × String) :=
  [("VAULT_URL", "u"), ("VAULT_TOKEN", "t"), ("VAULT_MOUNT", "mnt"),
   ("VAULT_KEY", "k"), ("VAULT_PROPERTY", "prop"), ("VAULT_PATH", "p")]

/-- The connection parameters `vaultKeys0` resolves to. -/
def conf0 : Vault.Conf := ⟨"u", "t", "mnt", "k", "prop", "p"⟩

/-- A Vault oracle returning a well-formed payload holding `prop`. -/
def apiOk0 : Vault.VaultAPI :=
  { newClient := fun _ => .ok ()
    read := fun _ _ => .ok ⟨[("data", Vault.VVal.map [("prop", Vault.VVal.str "s3cret")])], []⟩ }

/-- A full environment around `GetVaultSecret` with a healthy Vault. -/
def venv0 : Vault.VaultEnv := ⟨.ok vaultKeys0, apiOk0, 100000⟩

/-- A fresh, readable cache file (modified 10000 s ago, window 21600 s). -/
def wFresh0 : Vault.World := ⟨some ⟨"cached", 90000, true⟩, false, false, false⟩

/-- No cache file. -/
def wAbsent0 : Vault.World := ⟨none, false, false, false⟩

/-- A stale cache file. -/
def wStale0 : Vault.World := ⟨some ⟨"old", 0, true⟩, false, false, false⟩

/-- A fresh cache file whose read fails. -/
def wUnread0 : Vault.World := ⟨some ⟨"x", 90000, false⟩, false, false, false⟩

/-- A filesystem whose `os.Stat` fails with a permission error. -/
def wPerm0 : Vault.World := ⟨some ⟨"x", 90000, true⟩, true, false, false⟩

/-- No cache file, and `os.Create` fails. -/
def wCreateFail0 : Vault.World := ⟨none, false, true, false⟩

namespace PD

/-- The descriptor's name is the derived service name. -/
theorem clusterService_name (d : Data) (p : String) :
    (clusterService d p).name = derivedName d := rfl

/-- C1: when the escalation policy resolves, `CreateService` fails with a
duplicate-name error, and the listing holds an exact-name match, the first
exact match is adopted as the service (its ID stored, no service created)
and exactly one integration is created, its ID returned. -/
theorem createService_adoptsOnDuplicate
    (d : Data) (env : Env) (policy e : String) (svcs : List Service)
    (svc : Service) (integ : Integration)
    (hp : env.getEscalationPolicy d.escalationPolicyID = .ok policy)
    (hc : env.createService (clusterService d policy) = .error e)
    (hdup : strContains e dupMsg = true)
    (hl : env.listServices (derivedName d) = .ok svcs)
    (hfind : svcs.find? (fun s => s.name == derivedName d) = some svc)
    (hi : env.createIntegration svc.id clusterIntegration = .ok integ) :
    (CreateService d env).data.ServiceID = svc.id ∧
    (CreateService d env).eff.servicesCreated = 0 ∧
    (CreateService d env).eff.integrationAttempts = 1 ∧
    (CreateService d env).eff.integrationsCreated = 1 ∧
    (CreateService d env).result = .ok integ.id := by
  simp [CreateService, hp, hc, hdup, clusterService_name, hl, hfind,
    finishWithService, hi]

/-- C1 witness: the adopt-on-duplicate scenario at a concrete input. -/
theorem createService_adoptsOnDuplicate_w :
    (CreateService pdData0 envAdopt).data.ServiceID = "SVC1" ∧
    (CreateService pdData0 envAdopt).eff.servicesCreated = 0 ∧
    (CreateService pdData0 envAdopt).eff.integrationAttempts = 1 ∧
    (CreateService pdData0 envAdopt).eff.integrationsCreated = 1 ∧
    (CreateService pdData0 envAdopt).result = .ok "INT1" :=
  createService_adoptsOnDuplicate pdData0 envAdopt "EP"
    "Name has already been taken"
    [⟨"SVC0", "other"⟩, svcMatch, ⟨"SVC2", "osd-abc.example.com-hive-cluster"⟩]
    svcMatch ⟨"INT1"⟩ rfl rfl (by decide) rfl (by decide) rfl

end PD

namespace PD

/-- C2: a non-duplicate creation error is returned unchanged with no
integration attempted; a duplicate-name error whose listing has no
exact-name match returns the original duplicate-name error. -/
theorem createService_errorPropagation
    (d : Data) (env : Env) (policy e : String)
    (hp : env.getEscalationPolicy d.escalationPolicyID = .ok policy)
    (hc : env.createService (clusterService d policy) = .error e) :
    (strContains e dupMsg = false →
      (CreateService d env).result = .error e ∧
      (CreateService d env).eff.integrationAttempts = 0) ∧
    (∀ svcs, strContains e dupMsg = true →
      env.listServices (derivedName d) = .ok svcs →
      svcs.find? (fun s => s.name == derivedName d) = none →
      (CreateService d env).result = .error e ∧
      (CreateService d env).eff.integrationAttempts = 0) := by
  constructor
  · intro hnd
    simp [CreateService, hp, hc, hnd]
  · intro svcs hdup hl hfind
    simp [CreateService, hp, hc, hdup, clusterService_name, hl, hfind]

/-- C2 witness: a fatal error and a no-match duplicate error, at concrete
inputs. -/
theorem createService_errorPropagation_w :
    ((CreateService pdData0 envFatal).result = .error "boom" ∧
     (CreateService pdData0 envFatal).eff.integrationAttempts = 0) ∧
    ((CreateService pdData0 envNoMatch).result =
       .error "Name has already been taken" ∧
     (CreateService pdData0 envNoMatch).eff.integrationAttempts = 0) :=
  ⟨(createService_errorPropagation pdData0 envFatal "EP" "boom" rfl rfl).1
     (by decide),
   (createService_errorPropagation pdData0 envNoMatch "EP"
     "Name has already been taken" rfl rfl).2 [⟨"SVC0", "other"⟩]
     (by decide) rfl (by decide)⟩

/-- C6: a failed escalation-policy lookup aborts provisioning with the
fixed policy-not-found error before any service creation is attempted; no
service or integration is created and the record is untouched. -/
theorem createService_policyAbort
    (d : Data) (env : Env) (e : String)
    (hp : env.getEscalationPolicy d.escalationPolicyID = .error e) :
    (CreateService d env).result = .error "Escalation policy not found in PagerDuty" ∧
    (CreateService d env).eff.serviceCreateAttempts = 0 ∧
    (CreateService d env).eff.servicesCreated = 0 ∧
    (CreateService d env).eff.integrationAttempts = 0 ∧
    (CreateService d env).eff.integrationsCreated = 0 ∧
    (CreateService d env).data = d := by
  simp [CreateService, hp]

/-- C6 witness: the policy-lookup-failure scenario at a concrete input. -/
theorem createService_policyAbort_w :
    (CreateService pdData0 envPolicyFail).result =
      .error "Escalation policy not found in PagerDuty" ∧
    (CreateService pdData0 envPolicyFail).eff.serviceCreateAttempts = 0 ∧
    (CreateService pdData0 envPolicyFail).eff.servicesCreated = 0 ∧
    (CreateService pdData0 envPolicyFail).eff.integrationAttempts = 0 ∧
    (CreateService pdData0 envPolicyFail).eff.integrationsCreated = 0 ∧
    (CreateService pdData0 envPolicyFail).data = pdData0 :=
  createService_policyAbort pdData0 envPolicyFail "404" rfl

/-- C10: when a service was created or adopted but the integration creation
fails, the error is returned while the record's service ID has already been
overwritten and its integration ID is unchanged. -/
theorem createService_partialUpdate
    (d : Data) (env : Env) (policy e : String) (svc : Service)
    (hp : env.getEscalationPolicy d.escalationPolicyID = .ok policy)
    (hsvc : env.createService (clusterService d policy) = .ok svc ∨
      (∃ e0 svcs, env.createService (clusterService d policy) = .error e0 ∧
        strContains e0 dupMsg = true ∧
        env.listServices (derivedName d) = .ok svcs ∧
        svcs.find? (fun s => s.name == derivedName d) = some svc))
    (hi : env.createIntegration svc.id clusterIntegration = .error e) :
    (CreateService d env).result = .error e ∧
    (CreateService d env).data.ServiceID = svc.id ∧
    (CreateService d env).data.IntegrationID = d.IntegrationID := by
  rcases hsvc with hok | ⟨e0, svcs, hc, hdup, hl, hfind⟩
  · simp [CreateService, hp, hok, finishWithService, hi]
  · simp [CreateService, hp, hc, hdup, clusterService_name, hl, hfind,
      finishWithService, hi]

/-- C10 witness: failed integration creation after a successful service
creation, at a concrete input. -/
theorem createService_partialUpdate_w :
    (CreateService pdData0 envIntFail).result = .error "int-boom" ∧
    (CreateService pdData0 envIntFail).data.ServiceID = "SVC9" ∧
    (CreateService pdData0 envIntFail).data.IntegrationID = "OLDINT" :=
  createService_partialUpdate pdData0 envIntFail "EP" "int-boom"
    ⟨"SVC9", "osd-abc.example.com-hive-cluster"⟩ rfl (Or.inl rfl) rfl

/-- C8: when `SERVICE_PREFIX` does not resolve, `ParsePDConfig` equals the
chained resolution of the four required keys (so their failures propagate
unchanged) with the prefix defaulted to `"osd"`. -/
theorem parsePDConfig_prefixDefault
    (d : Data) (m : List (String × String))
    (hp : exceptIsOk (getSecretKey m "SERVICE_PREFIX") = false) :
    ParsePDConfig d (.ok m) =
      (requiredResolve m).map (fun q => applyParsed d q "osd") := by
  rcases hx : getSecretKey m "SERVICE_PREFIX" with epfx | s
  case ok => rw [hx] at hp; simp [exceptIsOk] at hp
  rcases h1 : getSecretKey m "PAGERDUTY_API_KEY" with e1 | a1
  · simp [ParsePDConfig, requiredResolve, Except.map, h1]
  rcases h2 : getSecretKey m "ESCALATION_POLICY" with e2 | a2
  · simp [ParsePDConfig, requiredResolve, Except.map, h1, h2]
  rcases h3 : getSecretKey m "RESOLVE_TIMEOUT" with e3 | a3
  · simp [ParsePDConfig, requiredResolve, Except.map, h1, h2, h3]
  rcases h4 : convertStrToUint a3 with e4 | n4
  · simp [ParsePDConfig, requiredResolve, Except.map, h1, h2, h3, h4]
  rcases h5 : getSecretKey m "ACKNOWLEDGE_TIMEOUT" with e5 | a5
  · simp [ParsePDConfig, requiredResolve, Except.map, h1, h2, h3, h4, h5]
  rcases h6 : convertStrToUint a5 with e6 | n6
  · simp [ParsePDConfig, requiredResolve, Except.map, h1, h2, h3, h4, h5, h6]
  simp [ParsePDConfig, requiredResolve, Except.map, h1, h2, h3, h4, h5, h6, hx, applyParsed]

/-- C8 witness: a Secret payload lacking `SERVICE_PREFIX`, at a concrete
input. -/
theorem parsePDConfig_prefixDefault_w :
    ParsePDConfig pdData0 (.ok pdSecret1) =
      (requiredResolve pdSecret1).map (fun q => applyParsed pdData0 q "osd") :=
  parsePDConfig_prefixDefault pdData0 pdSecret1 (by decide)

end PD

namespace Vault

/-- A successful `queryVault` never returns the empty string. -/
theorem queryVault_ok_ne_empty (c : Conf) (api : VaultAPI) (v : String)
    (h : queryVault c api = .ok v) : v ≠ "" := by
  unfold queryVault at h
  rcases hnc : api.newClient c.url with e | u <;> simp only [hnc] at h
  · simp at h
  rcases hrd : api.read c.token (c.mount ++ "/data/" ++ c.path) with e | r <;>
    simp only [hrd] at h
  · simp at h
  rcases hl : lookupAssoc r.data "data" with _ | v' <;> simp only [hl] at h
  · simp at h
  rcases v' with s | mm | o
  · simp at h
  · by_cases hz : (r.data.length == 0) = true
    · simp [hz] at h
    · simp only [Bool.not_eq_true] at hz
      simp only [hz, Bool.false_eq_true, if_false] at h
      rcases hf : mm.find? (fun p => p.1 == c.property) with _ | p <;>
        simp only [hf] at h
      · simp at h
      by_cases hlen : p.2.render.length ≤ 0
      · simp [hlen] at h
      · simp [hlen] at h
        intro hemp
        rw [h, hemp] at hlen
        exact hlen (by decide)
  · simp at h

/-- C3: a payload whose `data` field is absent or not a nested mapping, or
whose top-level payload is empty, fails with the malformed-payload error; an
empty nested mapping fails with property-not-found; and no success ever
carries the empty string. -/
theorem queryVault_payloadErrors
    (c : Conf) (api : VaultAPI) (r : VaultResponse)
    (hc : api.newClient c.url = .ok ())
    (hr : api.read c.token (c.mount ++ "/data/" ++ c.path) = .ok r) :
    (dataFieldIsMap r = false →
      queryVault c api = .error "Error parsing secret data") ∧
    (r.data = [] →
      queryVault c api = .error "Error parsing secret data") ∧
    (lookupAssoc r.data "data" = some (VVal.map []) →
      queryVault c api = .error (c.property ++ " not set in vault")) ∧
    (∀ v, queryVault c api = .ok v → v ≠ "") := by
  refine ⟨?_, ?_, ?_, fun v hv => queryVault_ok_ne_empty c api v hv⟩
  · intro h
    unfold dataFieldIsMap at h
    rcases hl : lookupAssoc r.data "data" with _ | v'
    · simp [queryVault, hc, hr, hl]
    · rw [hl] at h
      rcases v' with s | mm | o
      · simp [queryVault, hc, hr, hl]
      · simp at h
      · simp [queryVault, hc, hr, hl]
  · intro h
    have hl : lookupAssoc r.data "data" = none := by simp [lookupAssoc, h]
    simp [queryVault, hc, hr, hl]
  · intro h
    rcases hrd : r.data with _ | ⟨hd, tl⟩
    · rw [hrd] at h; simp [lookupAssoc] at h
    · rw [hrd] at h
      simp [queryVault, hc, hr, hrd, h]

/-- C3 witness: concrete malformed, empty, empty-nested and healthy
payloads. -/
theorem queryVault_payloadErrors_w :
    (queryVault conf0
      { newClient := fun _ => .ok ()
        read := fun _ _ => .ok ⟨[("data", Vault.VVal.str "flat")], []⟩ } =
      .error "Error parsing secret data") ∧
    (queryVault conf0
      { newClient := fun _ => .ok (), read := fun _ _ => .ok ⟨[], []⟩ } =
      .error "Error parsing secret data") ∧
    (queryVault conf0
      { newClient := fun _ => .ok ()
        read := fun _ _ => .ok ⟨[("data", Vault.VVal.map [])], []⟩ } =
      .error "prop not set in vault") :=
  ⟨(queryVault_payloadErrors conf0 _ ⟨[("data", Vault.VVal.str "flat")], []⟩
      rfl rfl).1 (by decide),
   (queryVault_payloadErrors conf0 _ ⟨[], []⟩ rfl rfl).2.1 rfl,
   (queryVault_payloadErrors conf0 _ ⟨[("data", Vault.VVal.map [])], []⟩
      rfl rfl).2.2.1 rfl⟩

end Vault

namespace Vault

/-- C4: with a fresh readable cache file the cached contents are returned
with no remote read; with the file absent or stale and the remote read
succeeding, exactly one remote read and one cache-file write happen and the
fetched value is returned. -/
theorem getVaultSecret_cacheFreshness
    (env : VaultEnv) (w : World) (m : List (String × String)) (c : Conf)
    (hk : env.k8sGet = .ok m) (hc : resolveConf m = .ok c)
    (hs : w.statPermError = false) :
    (∀ f, w.file = some f → ¬(f.mtime < env.now - stalenessWindow) →
      f.readable = true →
      (GetVaultSecret env w).outcome = .ok f.content ∧
      (GetVaultSecret env w).eff.remoteReads = 0 ∧
      (GetVaultSecret env w).eff.saveAttempts = 0) ∧
    (∀ v, (w.file = none ∨ ∃ f, w.file = some f ∧ f.mtime < env.now - stalenessWindow) →
      queryVault c env.api = .ok v →
      (GetVaultSecret env w).outcome = .ok v ∧
      (GetVaultSecret env w).eff.remoteReads = 1 ∧
      (GetVaultSecret env w).eff.saveAttempts = 1) := by
  constructor
  · intro f hf hfresh hread
    simp [GetVaultSecret, hk, hc, hs, hf, hfresh, readStep, hread]
  · intro v hstale hq
    rcases hstale with hnone | ⟨f, hf, hst⟩
    · by_cases hcf : w.createFails <;> by_cases hwf : w.writeFails <;>
        simp [GetVaultSecret, hk, hc, hs, hnone, hq, saveSecret, readStep,
          hcf, hwf]
    · by_cases hcf : w.createFails <;> by_cases hwf : w.writeFails <;>
        simp [GetVaultSecret, hk, hc, hs, hf, hst, hq, saveSecret, readStep,
          hcf, hwf]

/-- C4 witness: a fresh cache hit and a cache miss, at concrete inputs. -/
theorem getVaultSecret_cacheFreshness_w :
    ((GetVaultSecret venv0 wFresh0).outcome = .ok "cached" ∧
     (GetVaultSecret venv0 wFresh0).eff.remoteReads = 0 ∧
     (GetVaultSecret venv0 wFresh0).eff.saveAttempts = 0) ∧
    ((GetVaultSecret venv0 wAbsent0).outcome = .ok "s3cret" ∧
     (GetVaultSecret venv0 wAbsent0).eff.remoteReads = 1 ∧
     (GetVaultSecret venv0 wAbsent0).eff.saveAttempts = 1) :=
  ⟨(getVaultSecret_cacheFreshness venv0 wFresh0 vaultKeys0 conf0 rfl rfl
      rfl).1 ⟨"cached", 90000, true⟩ rfl (by decide) rfl,
   (getVaultSecret_cacheFreshness venv0 wAbsent0 vaultKeys0 conf0 rfl rfl
      rfl).2 "s3cret" (Or.inl rfl) rfl⟩

/-- C5: a fresh cache file whose read fails is deleted, exactly one remote
read happens, and its result is returned directly with no second file-read
attempt. -/
theorem getVaultSecret_readFallback
    (env : VaultEnv) (w : World) (m : List (String × String)) (c : Conf)
    (f : CacheFile)
    (hk : env.k8sGet = .ok m) (hc : resolveConf m = .ok c)
    (hs : w.statPermError = false) (hf : w.file = some f)
    (hfresh : ¬(f.mtime < env.now - stalenessWindow))
    (hunread : f.readable = false) :
    (GetVaultSecret env w).world.file = none ∧
    (GetVaultSecret env w).eff.remoteReads = 1 ∧
    (GetVaultSecret env w).eff.fileReads = 1 ∧
    (GetVaultSecret env w).eff.deletes = 1 ∧
    (GetVaultSecret env w).outcome =
      (match queryVault c env.api with
       | .ok v => Outcome.ok v
       | .error e => Outcome.err e) := by
  rcases hq : queryVault c env.api with e | v <;>
    simp [GetVaultSecret, hk, hc, hs, hf, hfresh, readStep, hunread, hq]

/-- C5 witness: an unreadable fresh cache file at a concrete input. -/
theorem getVaultSecret_readFallback_w :
    (GetVaultSecret venv0 wUnread0).world.file = none ∧
    (GetVaultSecret venv0 wUnread0).eff.remoteReads = 1 ∧
    (GetVaultSecret venv0 wUnread0).eff.fileReads = 1 ∧
    (GetVaultSecret venv0 wUnread0).eff.deletes = 1 ∧
    (GetVaultSecret venv0 wUnread0).outcome =
      (match queryVault conf0 venv0.api with
       | .ok v => Outcome.ok v
       | .error e => Outcome.err e) :=
  getVaultSecret_readFallback venv0 wUnread0 vaultKeys0 conf0
    ⟨"x", 90000, false⟩ rfl rfl rfl rfl (by decide) rfl

/-- C7: after a stale-or-absent cache file and a successful remote read, a
failure to persist the value does not fail the call: the fetched value is
returned with no error. -/
theorem getVaultSecret_saveFailureNonFatal
    (env : VaultEnv) (w : World) (m : List (String × String)) (c : Conf)
    (v : String)
    (hk : env.k8sGet = .ok m) (hc : resolveConf m = .ok c)
    (hs : w.statPermError = false)
    (hstale : w.file = none ∨ ∃ f, w.file = some f ∧ f.mtime < env.now - stalenessWindow)
    (hq : queryVault c env.api = .ok v)
    (hsave : w.createFails = true ∨ w.writeFails = true) :
    (GetVaultSecret env w).outcome = .ok v := by
  have hsv : (saveSecret w env.now v).2 = false := by
    rcases hsave with h1 | h2
    · simp [saveSecret, h1]
    · by_cases hcf : w.createFails <;> simp [saveSecret, hcf, h2]
  rcases hstale with hnone | ⟨f, hf, hst⟩
  · simp [GetVaultSecret, hk, hc, hs, hnone, hq, hsv]
  · simp [GetVaultSecret, hk, hc, hs, hf, hst, hq, hsv]

/-- C7 witness: a cache miss whose file creation fails, at a concrete
input. -/
theorem getVaultSecret_saveFailureNonFatal_w :
    (GetVaultSecret venv0 wCreateFail0).outcome = .ok "s3cret" :=
  getVaultSecret_saveFailureNonFatal venv0 wCreateFail0 vaultKeys0 conf0
    "s3cret" rfl rfl rfl (Or.inl rfl) rfl (Or.inl rfl)

/-- C9: when `os.Stat` on the cache file fails with an error other than
non-existence, `GetVaultSecret` dereferences the nil file info and crashes,
performing no remote read. -/
theorem getVaultSecret_statPanic
    (env : VaultEnv) (w : World) (m : List (String × String)) (c : Conf)
    (hk : env.k8sGet = .ok m) (hc : resolveConf m = .ok c)
    (hs : w.statPermError = true) :
    (GetVaultSecret env w).outcome = .panics ∧
    (GetVaultSecret env w).eff.remoteReads = 0 := by
  simp [GetVaultSecret, hk, hc, hs]

/-- C9 witness: a permission-style stat failure at a concrete input. -/
theorem getVaultSecret_statPanic_w :
    (GetVaultSecret venv0 wPerm0).outcome = .panics ∧
    (GetVaultSecret venv0 wPerm0).eff.remoteReads = 0 :=
  getVaultSecret_statPanic venv0 wPerm0 vaultKeys0 conf0 rfl rfl rfl

end Vault
